import Mathlib

/-!
Verification of the ruler-calibrated garment-measurement pipeline.

Shallow embedding of the repository's core logic:
* `src/services/testUtils.ts` — `validateResult` (result validator);
* `src/services/geminiService.ts` — response cleaning/extraction, JSON
  parsing, calibration math, and the credential gate of
  `analyzeGarmentImage`.

Coordinates and centimeter values are modelled as rationals (`ℚ`); the
intermediate geometric quantities (Euclidean distances, which involve
`Math.sqrt`) are modelled as real numbers.  JavaScript's `undefined` is
modelled with `Option`.
-/

/-! ## Data model (src/types.ts, `Point`, `Measurement`, `AnalysisResult`) -/

/-- A 2D coordinate in the normalized 0–1000 image-space grid
(`interface Point { x: number; y: number; }`). -/
structure Point where
  x : ℚ
  y : ℚ
deriving DecidableEq

/-- One measurement segment.  `value` and `valueCm` are the derived fields
(`value?: string; valueCm?: number` in the source); `Option` models their
possible absence (`undefined`). -/
structure Measurement where
  label : String
  start : Point
  «end» : Point
  value : Option String
  valueCm : Option ℚ
deriving DecidableEq

/-- The parsed model response.  `clothingType` is a `String` because the
runtime performs no validation of the JSON-supplied value (the TypeScript
union type is erased); `rulerStart`/`rulerEnd` are `Option` because the
code explicitly guards `!result.rulerStart || !result.rulerEnd` at runtime. -/
structure AnalysisResult where
  clothingType : String
  rulerStart : Option Point
  rulerEnd : Option Point
  rulerLengthCm : ℚ
  measurements : List Measurement
deriving DecidableEq

/-! ## Result validator (src/services/testUtils.ts, `validateResult`) -/

/-- `interface TestValidationResult` from testUtils.ts. -/
structure TestValidationResult where
  passed : Bool
  missingFields : List String
  invalidValues : List String
deriving DecidableEq

/-- `aList.isPrefixOf bList` over characters, used to implement JS
`String.prototype.includes`. -/
def listIsPref : List Char → List Char → Bool
  | [], _ => true
  | _ :: _, [] => false
  | a :: as, b :: bs => a == b && listIsPref as bs

/-- Substring occurrence over characters. -/
def listContainsSeq (sub : List Char) : List Char → Bool
  | [] => listIsPref sub []
  | c :: cs => listIsPref sub (c :: cs) || listContainsSeq sub cs

/-- JS `l.includes(sub)`: `sub` occurs contiguously inside `l`. -/
def strIncludes (l sub : String) : Bool := listContainsSeq sub.data l.data

/-- The fixed per-type table of required measurement labels
(`const requiredLabels: Record<string, string[]>` in testUtils.ts), as
the function the JS lookup `requiredLabels[t] || []` computes on own keys
and on absent keys (`undefined || [] = []`).  It deliberately does NOT
cover the keys a JS object literal inherits from `Object.prototype`
(`"toString"`, `"constructor"`, ...): there the lookup yields a truthy
non-array and `validateResult` crashes — see `objectProtoKeys` and
`validateResultJs` below. -/
def requiredLabels (t : String) : List String :=
  if t = "SHIRT" then ["어깨너비", "가슴단면", "소매길이", "총장"]
  else if t = "OUTER" then ["어깨너비", "가슴단면", "소매길이", "총장"]
  else if t = "PANTS" then ["허리단면", "엉덩이단면", "허벅지단면", "밑단단면", "총장"]
  else if t = "SKIRT" then ["허리단면", "엉덩이단면", "밑단단면", "총장"]
  else if t = "DRESS" then ["어깨너비", "가슴단면", "허리단면", "소매길이", "총장"]
  else []

/-- Step 1 of `validateResult`: `if (!result.rulerStart || !result.rulerEnd)
missingFields.push("Ruler Coordinates")`. -/
def rulerMissing (result : AnalysisResult) : List String :=
  if result.rulerStart.isNone || result.rulerEnd.isNone then ["Ruler Coordinates"] else []

/-- Step 2 of `validateResult`: every required label with no actual label
containing it (`!actualLabels.some(l => l.includes(label))`). -/
def missingLabelList (result : AnalysisResult) : List String :=
  (requiredLabels result.clothingType).filter fun label =>
    ! (result.measurements.map (·.label)).any fun l => strIncludes l label

/-- The numeric-sanity test on `valueCm`:
`m.valueCm === undefined || m.valueCm <= 0 || isNaN(m.valueCm)`.
(`NaN` has no counterpart in `ℚ`, so the `isNaN` disjunct is constantly
false in this model.) -/
def valueCmInvalid (m : Measurement) : Bool :=
  match m.valueCm with
  | none => true
  | some v => decide (v ≤ 0)

/-- The coordinate-sanity test of `validateResult`:
`m.start.x < 0 || m.start.x > 1000 || m.start.y < 0 || m.start.y > 1000`.
Note the source checks only `m.start`, never `m.end`. -/
def startOutOfBounds (m : Measurement) : Bool :=
  decide (m.start.x < 0) || decide (m.start.x > 1000) ||
  decide (m.start.y < 0) || decide (m.start.y > 1000)

/-- Step 3 of `validateResult` for a single measurement: the strings pushed
onto `invalidValues` (`${m.label} (${m.value})`, where an absent JS string
interpolates as "undefined", and `${m.label} coordinates out of bounds`). -/
def measurementIssues (m : Measurement) : List String :=
  (if valueCmInvalid m then [m.label ++ " (" ++ m.value.getD "undefined" ++ ")"] else []) ++
  (if startOutOfBounds m then [m.label ++ " coordinates out of bounds"] else [])

/-- All `invalidValues` entries, in source push order. -/
def invalidValueList (result : AnalysisResult) : List String :=
  (result.measurements.map measurementIssues).flatten

/-- `validateResult` from testUtils.ts: `passed` is
`missingFields.length === 0 && invalidValues.length === 0`. -/
def validateResult (result : AnalysisResult) : TestValidationResult :=
  { passed := (rulerMissing result ++ missingLabelList result).isEmpty &&
      (invalidValueList result).isEmpty
    missingFields := rulerMissing result ++ missingLabelList result
    invalidValues := invalidValueList result }

/-- The property names a plain JS object literal inherits from
`Object.prototype`.  Looking one of these up on the `requiredLabels`
object yields the inherited function/object (e.g.
`Object.prototype.toString`) rather than `undefined`. -/
def objectProtoKeys : List String :=
  ["constructor", "hasOwnProperty", "isPrototypeOf", "propertyIsEnumerable",
   "toLocaleString", "toString", "valueOf", "__proto__", "__defineGetter__",
   "__defineSetter__", "__lookupGetter__", "__lookupSetter__"]

/-- `validateResult` including the JS prototype-chain corner of
`requiredLabels[result.clothingType] || []`: when `clothingType` is an
inherited `Object.prototype` property name, the lookup yields a truthy
non-array, `|| []` keeps it, and `expected.forEach(...)` throws a
`TypeError` — modelled as `none`.  On every other input (the five own
keys, and absent keys where `undefined || []` gives `[]`) it behaves as
`validateResult`. -/
def validateResultJs (result : AnalysisResult) : Option TestValidationResult :=
  if objectProtoKeys.contains result.clothingType then none
  else some (validateResult result)

/-! ## Response cleaning and extraction (geminiService.ts lines 183–193)

The source does:
```
let cleanText = text.trim();
cleanText = cleanText.replace(/```json/g, '').replace(/```/g, '');
const jsonStartIndex = cleanText.indexOf('{');
const jsonEndIndex = cleanText.lastIndexOf('}');
if (jsonStartIndex !== -1 && jsonEndIndex !== -1) {
  cleanText = cleanText.substring(jsonStartIndex, jsonEndIndex + 1);
}
const rawResult = JSON.parse(cleanText) as AnalysisResult;
```
-/

/-- JS `String.prototype.trim` on the character list: strip leading and
trailing whitespace. -/
def trimList (cs : List Char) : List Char :=
  ((cs.dropWhile Char.isWhitespace).reverse.dropWhile Char.isWhitespace).reverse

/-- JS `trim` as a `String` operation. -/
def jsTrim (s : String) : String := ⟨trimList s.data⟩

/-- Fuelled worker for global (non-overlapping, left-to-right) string
replacement; the replacement text is not rescanned, matching JS
`replace(/pat/g, rep)`.  The fuel is only a termination device: callers
always supply `cs.length`, which is sufficient. -/
def replaceFuel (pat rep : List Char) : Nat → List Char → List Char
  | _, [] => []
  | 0, c :: cs => c :: cs
  | fuel + 1, c :: cs =>
    if pat.isPrefixOf (c :: cs) && !pat.isEmpty then
      rep ++ replaceFuel pat rep fuel ((c :: cs).drop pat.length)
    else
      c :: replaceFuel pat rep fuel cs

/-- JS `s.replace(/pat/g, rep)` for a literal pattern. -/
def replaceAll (pat rep cs : List Char) : List Char := replaceFuel pat rep cs.length cs

/-- The two fence-stripping passes:
`.replace(/```json/g, '').replace(/```/g, '')`. -/
def stripFences (s : String) : String :=
  ⟨replaceAll "```".data [] (replaceAll "```json".data [] s.data)⟩

/-- JS `s.indexOf(c)`, as an `Option Nat` (JS returns `-1` for no hit). -/
def idxOf (c : Char) : List Char → Option Nat
  | [] => none
  | x :: xs => if x == c then some 0 else (idxOf c xs).map (· + 1)

/-- JS `s.lastIndexOf(c)`. -/
def lastIdxOf (c : Char) (cs : List Char) : Option Nat :=
  match idxOf c cs.reverse with
  | some k => some (cs.length - 1 - k)
  | none => none

/-- JS `s.substring(a, b)`: swaps its arguments when `a > b` and clamps to
the string length. -/
def jsSubstring (cs : List Char) (a b : Nat) : List Char :=
  (cs.take (max a b)).drop (min a b)

/-- The full cleaning/extraction step: trim, strip fences, and cut to the
substring from the first `{` to the last `}` inclusive — but only when
both indices exist; otherwise the whole cleaned text is kept. -/
def cleanExtract (text : String) : String :=
  let cleaned := stripFences (jsTrim text)
  match idxOf '{' cleaned.data, lastIdxOf '}' cleaned.data with
  | some i, some j => ⟨jsSubstring cleaned.data i (j + 1)⟩
  | _, _ => cleaned

/-! ## JSON values and `JSON.parse`

The source calls the JavaScript builtin `JSON.parse` on the cleaned text
and performs NO further validation (the TypeScript cast
`as AnalysisResult` is erased at runtime).  The builtin is modelled by a
recursive-descent parser of JSON (ECMA-404) below; a `none` result models
the `SyntaxError` that `JSON.parse` throws on invalid input.  Unmodelled
fidelity corners that no theorem here depends on: the ban on leading
zeros in numbers, the ban on raw control characters in strings, and
surrogate-pair decoding of `\uXXXX` escapes. -/

/-- JSON values. -/
inductive Json where
  | null : Json
  | bool : Bool → Json
  | num : ℚ → Json
  | str : String → Json
  | arr : List Json → Json
  | obj : List (String × Json) → Json

/-- Skip JSON whitespace. -/
def skipWs : List Char → List Char
  | [] => []
  | c :: cs => if c.isWhitespace then skipWs cs else c :: cs

/-- Decimal digits to a natural number. -/
def digitsToNat (ds : List Char) : Nat :=
  ds.foldl (fun acc c => acc * 10 + (c.toNat - 48)) 0

/-- Parse an optional fraction part `.digits`, returned as a rational in
`[0, 1)`. -/
def parseFrac (cs : List Char) : Option (ℚ × List Char) :=
  match cs with
  | '.' :: t =>
    let p := t.span (fun c => c.isDigit)
    if p.1.isEmpty then none
    else some ((digitsToNat p.1 : ℚ) / (10 : ℚ) ^ p.1.length, p.2)
  | _ => some (0, cs)

/-- Parse an optional exponent part, returned as the multiplier `10^±e`. -/
def parseExpPart (cs : List Char) : Option (ℚ × List Char) :=
  match cs with
  | c :: t =>
    if c = 'e' ∨ c = 'E' then
      let sgn := match t with
        | '+' :: r => (false, r)
        | '-' :: r => (true, r)
        | _ => (false, t)
      let p := sgn.2.span (fun ch => ch.isDigit)
      if p.1.isEmpty then none
      else some (if sgn.1 then 1 / (10 : ℚ) ^ digitsToNat p.1 else (10 : ℚ) ^ digitsToNat p.1, p.2)
    else some (1, cs)
  | [] => some (1, [])

/-- Parse a JSON number. -/
def parseNumber (cs : List Char) : Option (ℚ × List Char) :=
  let neg := match cs with
    | '-' :: t => (true, t)
    | _ => (false, cs)
  let p := neg.2.span (fun c => c.isDigit)
  if p.1.isEmpty then none
  else
    match parseFrac p.2 with
    | none => none
    | some (fr, cs2) =>
      match parseExpPart cs2 with
      | none => none
      | some (mult, cs3) =>
        let mag : ℚ := ((digitsToNat p.1 : ℚ) + fr) * mult
        some (if neg.1 then -mag else mag, cs3)

/-- Hexadecimal digit value. -/
def hexVal (c : Char) : Option Nat :=
  if c.isDigit then some (c.toNat - 48)
  else if 'a' ≤ c ∧ c ≤ 'f' then some (c.toNat - 87)
  else if 'A' ≤ c ∧ c ≤ 'F' then some (c.toNat - 55)
  else none

/-- Parse the body of a JSON string after the opening quote, handling the
escape sequences of ECMA-404. -/
def parseStringBody : List Char → Option (List Char × List Char)
  | [] => none
  | '"' :: rest => some ([], rest)
  | '\\' :: rest =>
    match rest with
    | 'u' :: h1 :: h2 :: h3 :: h4 :: rest2 =>
      match hexVal h1, hexVal h2, hexVal h3, hexVal h4 with
      | some a, some b, some c, some d =>
        match parseStringBody rest2 with
        | some (s, r) => some (Char.ofNat (((a * 16 + b) * 16 + c) * 16 + d) :: s, r)
        | none => none
      | _, _, _, _ => none
    | e :: rest2 =>
      let esc : Option Char :=
        if e = '"' then some '"'
        else if e = '\\' then some '\\'
        else if e = '/' then some '/'
        else if e = 'b' then some (Char.ofNat 8)
        else if e = 'f' then some (Char.ofNat 12)
        else if e = 'n' then some '\n'
        else if e = 'r' then some '\r'
        else if e = 't' then some '\t'
        else none
      match esc with
      | some c =>
        match parseStringBody rest2 with
        | some (s, r) => some (c :: s, r)
        | none => none
      | none => none
    | [] => none
  | c :: rest =>
    match parseStringBody rest with
    | some (s, r) => some (c :: s, r)
    | none => none

mutual

/-- Parse one JSON value (fuelled recursive descent). -/
def parseValue : Nat → List Char → Option (Json × List Char)
  | 0, _ => none
  | fuel + 1, cs =>
    match skipWs cs with
    | [] => none
    | c :: rest =>
      if c = 'n' then
        match rest with
        | 'u' :: 'l' :: 'l' :: r => some (.null, r)
        | _ => none
      else if c = 't' then
        match rest with
        | 'r' :: 'u' :: 'e' :: r => some (.bool true, r)
        | _ => none
      else if c = 'f' then
        match rest with
        | 'a' :: 'l' :: 's' :: 'e' :: r => some (.bool false, r)
        | _ => none
      else if c = '"' then
        match parseStringBody rest with
        | some (s, r) => some (.str ⟨s⟩, r)
        | none => none
      else if c = '[' then
        match skipWs rest with
        | ']' :: r => some (.arr [], r)
        | r2 =>
          match parseElems fuel r2 with
          | some (es, r) => some (.arr es, r)
          | none => none
      else if c = '{' then
        match skipWs rest with
        | '}' :: r => some (.obj [], r)
        | r2 =>
          match parseMembers fuel r2 with
          | some (ms, r) => some (.obj ms, r)
          | none => none
      else
        match parseNumber (c :: rest) with
        | some (q, r) => some (.num q, r)
        | none => none

/-- Parse the elements of a non-empty JSON array, up to and including the
closing bracket. -/
def parseElems : Nat → List Char → Option (List Json × List Char)
  | 0, _ => none
  | fuel + 1, cs =>
    match parseValue fuel cs with
    | some (j, r) =>
      match skipWs r with
      | ',' :: r2 =>
        match parseElems fuel r2 with
        | some (es, r3) => some (j :: es, r3)
        | none => none
      | ']' :: r2 => some ([j], r2)
      | _ => none
    | none => none

/-- Parse the members of a non-empty JSON object, up to and including the
closing brace. -/
def parseMembers : Nat → List Char → Option (List (String × Json) × List Char)
  | 0, _ => none
  | fuel + 1, cs =>
    match skipWs cs with
    | '"' :: rest =>
      match parseStringBody rest with
      | some (k, r) =>
        match skipWs r with
        | ':' :: r2 =>
          match parseValue fuel r2 with
          | some (v, r3) =>
            match skipWs r3 with
            | ',' :: r4 =>
              match parseMembers fuel r4 with
              | some (ms, r5) => some ((⟨k⟩, v) :: ms, r5)
              | none => none
            | '}' :: r4 => some ([(⟨k⟩, v)], r4)
            | _ => none
          | none => none
        | _ => none
      | none => none
    | _ => none

end

/-- `JSON.parse` on a whole string: exactly one value, possibly surrounded
by whitespace.  The fuel `2 * length + 4` dominates the recursion depth
(each level of fuel consumes at least one character of input through
`parseValue`/`parseElems`/`parseMembers`). -/
def parseJson (s : String) : Option Json :=
  match parseValue (2 * s.data.length + 4) s.data with
  | some (j, rest) => if (skipWs rest).isEmpty then some j else none
  | none => none

/-- The response-parsing step of `analyzeGarmentImage`: clean/extract, then
`JSON.parse`.  A `none` result models the thrown `SyntaxError`, i.e. the
spec's `MalformedResponseError`. -/
def parseResponse (text : String) : Option Json := parseJson (cleanExtract text)

example : parseResponse "null" = some Json.null := by rfl
example : parseResponse "{}" = some (Json.obj []) := by rfl
example : parseResponse "Here you go:\n```json\n{}\n```\nThanks!" = some (Json.obj []) := by
  rfl
example : parseResponse "no json here at all" = none := by rfl
example : parseJson " [true, null, \"x\"] " =
    some (Json.arr [Json.bool true, Json.null, Json.str "x"]) := by rfl
example : (parseJson "[1, -2.5e1, 3.25]").isSome = true := by rfl
example : parseJson "[1, 2" = none := by rfl

example :
    validateResult
      { clothingType := "SHIRT", rulerStart := some ⟨0, 0⟩, rulerEnd := some ⟨500, 0⟩,
        rulerLengthCm := 50,
        measurements := [⟨"어깨너비", ⟨0, 0⟩, ⟨100, 0⟩, some "10.0cm", some 10⟩] } =
      { passed := false, missingFields := ["가슴단면", "소매길이", "총장"], invalidValues := [] } := by
  decide

/-! ## Calibration math (geminiService.ts lines 196–229)

```
const dx = result.rulerEnd.x - result.rulerStart.x;
const dy = result.rulerEnd.y - result.rulerStart.y;
const rulerPixelDist = Math.sqrt(dx * dx + dy * dy);
const referenceLength = 50;
result.rulerLengthCm = referenceLength;
if (rulerPixelDist > 0) {
  const unitsPerCm = rulerPixelDist / referenceLength;
  result.measurements = result.measurements.map(m => { ... valueCm:
    parseFloat(cmValue.toFixed(1)), value: `${cmValue.toFixed(1)}cm` });
} else {
  result.measurements = result.measurements.map(m => ({...m, value: "Error"}));
}
```

`Math.sqrt` is modelled by `Real.sqrt`, and `toFixed(1)` (which for the
nonnegative values arising here rounds half away from zero to one decimal)
by `round (10 * x)`.  Accessing `.x`/`.y` of an absent ruler point throws a
`TypeError` in JS; `calibrate` returns `none` there. -/

/-- `Math.sqrt(dx*dx + dy*dy)` for the segment from `p` to `q`. -/
noncomputable def euclid (p q : Point) : ℝ :=
  let dx : ℚ := q.x - p.x
  let dy : ℚ := q.y - p.y
  Real.sqrt ((dx * dx + dy * dy : ℚ) : ℝ)

/-- `parseFloat(x.toFixed(1))` for nonnegative `x`: the value rounded to
one decimal place, exact as a rational. -/
noncomputable def roundCm1 (x : ℝ) : ℚ := (round (10 * x) : ℤ) / 10

/-- `x.toFixed(1)` for nonnegative `x`: the decimal string with exactly
one digit after the point. -/
noncomputable def toFixed1 (x : ℝ) : String :=
  let n : ℤ := round (10 * x)
  toString (n / 10) ++ "." ++ toString (n % 10)

/-- The per-measurement body of the positive calibration branch:
`dist = Math.sqrt(mdx*mdx + mdy*mdy)`; `cmValue = dist / unitsPerCm` with
`unitsPerCm = rulerPixelDist / referenceLength` and `referenceLength = 50`;
then `valueCm: parseFloat(cmValue.toFixed(1))` and
`value:` the string `cmValue.toFixed(1)` followed by "cm". -/
noncomputable def calibrateMeasurement (rs re : Point) (m : Measurement) : Measurement :=
  let cmValue : ℝ := euclid m.start m.«end» / (euclid rs re / 50)
  { m with valueCm := some (roundCm1 cmValue), value := some (toFixed1 cmValue ++ "cm") }

/-- The per-measurement body of the degenerate branch:
`({ ...m, value: "Error" })`. -/
def errorMeasurement (m : Measurement) : Measurement :=
  { m with value := some "Error" }

/-- The calibration step of `analyzeGarmentImage`: `rulerPixelDist` is
`euclid rs re`; `rulerLengthCm` is forced to the constant 50
(`referenceLength`); the branch on `rulerPixelDist > 0` picks the
calibrating map or the error-sentinel map.  A `none` result models the
`TypeError` thrown when `rulerStart`/`rulerEnd` is absent at runtime. -/
noncomputable def calibrate (result : AnalysisResult) : Option AnalysisResult :=
  match result.rulerStart, result.rulerEnd with
  | some rs, some re =>
    if 0 < euclid rs re then
      some { result with
        rulerLengthCm := 50
        measurements := result.measurements.map (calibrateMeasurement rs re) }
    else
      some { result with
        rulerLengthCm := 50
        measurements := result.measurements.map errorMeasurement }
  | _, _ => none

/-! ## The analyzer's credential gate and error taxonomy
(geminiService.ts lines 6–10 and 176–193)

```
if (!process.env.API_KEY) { throw new Error("API Key is missing"); }
...
const text = response.text;
if (!text) { throw new Error("No text response received from Gemini."); }
```

The spec's error taxonomy names these paths `ConfigurationError`,
`UpstreamError` and `MalformedResponseError`.  The external call itself is
not modelled: its outcome enters as the `responseText` argument, so the
returned error's independence from `responseText` expresses that the
credential check happens before any outbound call. -/

/-- The spec's typed error taxonomy for `analyze`. -/
inductive AnalyzeError where
  | configurationError : AnalyzeError
  | upstreamError : AnalyzeError
  | malformedResponseError : AnalyzeError
deriving DecidableEq

/-- The control-flow skeleton of `analyzeGarmentImage`, up to the parsed
JSON value.  `apiKey` is `process.env.API_KEY` (`none` = unset; JS treats
the empty string as falsy too); `responseText` is `response.text` of the
external call. -/
def analyzeGarment (apiKey : Option String) (responseText : Option String) :
    Except AnalyzeError Json :=
  if (apiKey.getD "").isEmpty then .error .configurationError
  else
    match responseText with
    | none => .error .upstreamError
    | some text =>
      match parseResponse text with
      | none => .error .malformedResponseError
      | some j => .ok j

/-- The backtick character, obtained from a string literal (used to state
"the content contains no fence characters"). -/
def btick : Char := "`".data.headD ' '

/-- The conversational wrapper of the parser-tolerance property: markdown
fences plus surrounding prose around a JSON payload. -/
def wrapResponse (u : String) : String :=
  "Here you go:\n```json\n" ++ u ++ "\n```\nThanks!"

/-! ## Theorems -/

/-- Every string pushed for a measurement of the result appears in
`invalidValues`. -/
theorem mem_invalidValueList {r : AnalysisResult} {m : Measurement}
    (hm : m ∈ r.measurements) {s : String} (hs : s ∈ measurementIssues m) :
    s ∈ invalidValueList r :=
  List.mem_flatten.mpr ⟨measurementIssues m, List.mem_map_of_mem _ hm, hs⟩

/-- Required labels are garment-dimension labels, never the ruler marker. -/
theorem requiredLabels_ne_ruler (t lab : String) (h : lab ∈ requiredLabels t) :
    lab ≠ "Ruler Coordinates" := by
  intro hh
  subst hh
  unfold requiredLabels at h
  split_ifs at h <;> revert h <;> decide

/-- Membership in `rulerMissing` forces the fixed marker string. -/
theorem mem_rulerMissing {r : AnalysisResult} {lab : String} (h : lab ∈ rulerMissing r) :
    lab = "Ruler Coordinates" := by
  unfold rulerMissing at h
  split_ifs at h <;> simp_all

/-- C3 (counterexample): a measurement whose `end` point lies far outside
the 0–1000 grid (end.x = 1500) is NOT recorded in `invalidValues` — the
source bounds-checks only `m.start` — so the claim's "either endpoint"
fails; the result even passes validation. -/
theorem validator_end_coords_unchecked_cex :
    validateResult
        { clothingType := "UNKNOWN", rulerStart := some ⟨0, 0⟩, rulerEnd := some ⟨10, 0⟩,
          rulerLengthCm := 50,
          measurements := [⟨"총장", ⟨0, 0⟩, ⟨1500, 0⟩, some "10.0cm", some 10⟩] } =
      { passed := true, missingFields := [], invalidValues := [] } ∧
    ((⟨"총장", ⟨0, 0⟩, ⟨1500, 0⟩, some "10.0cm", some 10⟩ : Measurement).«end».x > 1000) := by
  exact ⟨by decide, by decide⟩

/-- C3 (amended): `validateResult` records a measurement in `invalidValues`
if its `valueCm` is undefined, ≤ 0 or NaN, or if its START endpoint's x or
y lies outside [0,1000] (the end endpoint is not checked), and any such
measurement forces `passed = false`. -/
theorem validator_invalid_value_recording (r : AnalysisResult) (m : Measurement)
    (hm : m ∈ r.measurements) :
    (valueCmInvalid m = true →
      m.label ++ " (" ++ m.value.getD "undefined" ++ ")" ∈ (validateResult r).invalidValues) ∧
    (startOutOfBounds m = true →
      m.label ++ " coordinates out of bounds" ∈ (validateResult r).invalidValues) ∧
    ((valueCmInvalid m || startOutOfBounds m) = true → (validateResult r).passed = false) := by
  have key : ∀ s ∈ measurementIssues m, s ∈ (validateResult r).invalidValues := by
    intro s hs
    exact mem_invalidValueList hm hs
  refine ⟨?_, ?_, ?_⟩
  · intro hv
    exact key _ (by simp [measurementIssues, hv])
  · intro hs
    exact key _ (by simp [measurementIssues, hs])
  · intro h
    have hmem : ∃ s, s ∈ (validateResult r).invalidValues := by
      rcases (by simpa using h : valueCmInvalid m = true ∨ startOutOfBounds m = true) with hv | hs
      · exact ⟨_, key (m.label ++ " (" ++ m.value.getD "undefined" ++ ")")
          (by simp [measurementIssues, hv])⟩
      · exact ⟨_, key (m.label ++ " coordinates out of bounds")
          (by simp [measurementIssues, hs])⟩
    rcases hmem with ⟨s, hsmem⟩
    have hne : invalidValueList r ≠ [] := List.ne_nil_of_mem hsmem
    simp [validateResult, List.isEmpty_eq_false.mpr hne]

/-- C7: the validator's required-label table; a required label sits in
`missingFields` iff no actual measurement label contains it as a
substring; and `passed` holds iff both `missingFields` and
`invalidValues` are empty. -/
theorem validator_required_label_semantics (r : AnalysisResult) :
    (requiredLabels "SHIRT" = ["어깨너비", "가슴단면", "소매길이", "총장"] ∧
     requiredLabels "OUTER" = ["어깨너비", "가슴단면", "소매길이", "총장"] ∧
     requiredLabels "PANTS" = ["허리단면", "엉덩이단면", "허벅지단면", "밑단단면", "총장"] ∧
     requiredLabels "SKIRT" = ["허리단면", "엉덩이단면", "밑단단면", "총장"] ∧
     requiredLabels "DRESS" = ["어깨너비", "가슴단면", "허리단면", "소매길이", "총장"]) ∧
    (∀ lab ∈ requiredLabels r.clothingType,
      (lab ∈ (validateResult r).missingFields ↔
        ((r.measurements.map (·.label)).any fun l => strIncludes l lab) = false)) ∧
    ((validateResult r).passed = true ↔
      (validateResult r).missingFields = [] ∧ (validateResult r).invalidValues = []) := by
  refine ⟨⟨by decide, by decide, by decide, by decide, by decide⟩, ?_, ?_⟩
  · intro lab hlab
    have hne := requiredLabels_ne_ruler r.clothingType lab hlab
    show lab ∈ rulerMissing r ++ missingLabelList r ↔ _
    rw [List.mem_append]
    constructor
    · rintro (h | h)
      · exact absurd (mem_rulerMissing h) hne
      · have := (List.mem_filter.mp h).2
        simpa using this
    · intro h
      refine Or.inr (List.mem_filter.mpr ⟨hlab, ?_⟩)
      simpa using h
  · simp [validateResult, List.isEmpty_iff, List.append_eq_nil]

/-- C10 (counterexample): `clothingType = "toString"` is not one of the
five garment types, yet the result does NOT pass validation with an empty
label set: the JS lookup hits the inherited, truthy
`Object.prototype.toString`, `|| []` keeps it, and `expected.forEach`
throws a `TypeError` — even though the ruler points are present and the
single measurement trips no numeric/coordinate check. -/
theorem validator_proto_key_crash_cex :
    validateResultJs
        { clothingType := "toString", rulerStart := some ⟨0, 0⟩, rulerEnd := some ⟨300, 400⟩,
          rulerLengthCm := 50,
          measurements := [⟨"기장", ⟨0, 0⟩, ⟨10, 10⟩, some "3.0cm", some 3⟩] } = none ∧
    ("toString" ≠ "SHIRT" ∧ "toString" ≠ "OUTER" ∧ "toString" ≠ "PANTS" ∧
     "toString" ≠ "SKIRT" ∧ "toString" ≠ "DRESS") ∧
    (∀ m ∈ [(⟨"기장", ⟨0, 0⟩, ⟨10, 10⟩, some "3.0cm", some 3⟩ : Measurement)],
      valueCmInvalid m = false ∧ startOutOfBounds m = false) :=
  ⟨rfl, by decide, by decide⟩

/-- C10 (amended): a `clothingType` outside both the five garment types
and the inherited `Object.prototype` property names looks up as
`undefined`, so `|| []` substitutes the empty required-label set, no
garment-dimension label is ever recorded in `missingFields`, validation
does not crash, and the result passes whenever the ruler points are
present and no measurement trips the numeric or start-coordinate checks.
(For the inherited names the code instead throws a `TypeError`, per the
counterexample.) -/
theorem validator_unknown_type_passes (r : AnalysisResult)
    (h1 : r.clothingType ≠ "SHIRT") (h2 : r.clothingType ≠ "OUTER")
    (h3 : r.clothingType ≠ "PANTS") (h4 : r.clothingType ≠ "SKIRT")
    (h5 : r.clothingType ≠ "DRESS")
    (hproto : objectProtoKeys.contains r.clothingType = false)
    (hrs : r.rulerStart.isSome = true) (hre : r.rulerEnd.isSome = true)
    (hm : ∀ m ∈ r.measurements, valueCmInvalid m = false ∧ startOutOfBounds m = false) :
    requiredLabels r.clothingType = [] ∧
    validateResultJs r = some (validateResult r) ∧
    (validateResult r).missingFields = [] ∧ (validateResult r).passed = true := by
  have hreq : requiredLabels r.clothingType = [] := by
    unfold requiredLabels
    split_ifs <;> simp_all
  have hrm : rulerMissing r = [] := by
    rcases Option.isSome_iff_exists.mp hrs with ⟨ps, hps⟩
    rcases Option.isSome_iff_exists.mp hre with ⟨pe, hpe⟩
    simp [rulerMissing, hps, hpe]
  have hml : missingLabelList r = [] := by
    unfold missingLabelList
    rw [hreq]
    rfl
  have hiv : invalidValueList r = [] := by
    unfold invalidValueList
    rw [List.flatten_eq_nil_iff]
    intro l hl
    rcases List.mem_map.mp hl with ⟨m, hm', rfl⟩
    obtain ⟨hv, hs⟩ := hm m hm'
    simp [measurementIssues, hv, hs]
  refine ⟨hreq, ?_, by simp [validateResult, hrm, hml], by simp [validateResult, hrm, hml, hiv]⟩
  unfold validateResultJs
  rw [hproto]
  rfl

/-- C4 (counterexample): the input "null" contains no brace at all, yet the
parse step succeeds (`JSON.parse` accepts the whole cleaned text), and
"{}" — which lacks every required top-level field — parses successfully as
well: the source performs no required-field check. -/
theorem parser_no_field_check_cex :
    (("null".data.all fun c => !(c == '{') && !(c == '}')) = true) ∧
    parseResponse "null" = some Json.null ∧
    parseResponse "{}" = some (Json.obj []) :=
  ⟨rfl, rfl, rfl⟩

/-- C4 (amended): when the cleaned text lacks a `{`/`}` pair, the whole
cleaned text is handed to `JSON.parse`, so the parse step fails with
`MalformedResponseError` exactly when that text is not syntactically valid
JSON — not unconditionally, and with no required-field validation. -/
theorem parser_braceless_input_parses_whole (text : String)
    (h : idxOf '{' (stripFences (jsTrim text)).data = none ∨
         lastIdxOf '}' (stripFences (jsTrim text)).data = none) :
    parseResponse text = parseJson (stripFences (jsTrim text)) := by
  rcases h with h | h
  · simp [parseResponse, cleanExtract, h]
  · rcases hidx : idxOf '{' (stripFences (jsTrim text)).data with _ | i <;>
      simp [parseResponse, cleanExtract, h, hidx]

/-- Witness for `parser_braceless_input_parses_whole` at the brace-free
input "null". -/
theorem parser_braceless_input_parses_whole_witness :
    (idxOf '{' (stripFences (jsTrim "null")).data = none ∨
     lastIdxOf '}' (stripFences (jsTrim "null")).data = none) ∧
    parseResponse "null" = parseJson (stripFences (jsTrim "null")) :=
  ⟨Or.inl rfl, parser_braceless_input_parses_whole "null" (Or.inl rfl)⟩

/-- C8: with no API credential (unset, or set to the falsy empty string),
the analyzer fails with `ConfigurationError`, whatever the external model
would have answered — the check precedes the outbound call — and the
failure is a typed error value, not a crash or a partial result. -/
theorem analyzer_missing_credential (responseText : Option String) :
    analyzeGarment none responseText = .error .configurationError ∧
    analyzeGarment (some "") responseText = .error .configurationError :=
  ⟨rfl, rfl⟩

/-- Witness for `analyzer_missing_credential` at a concrete response. -/
theorem analyzer_missing_credential_witness :
    analyzeGarment none (some "{}") = .error .configurationError :=
  (analyzer_missing_credential (some "{}")).1

/-- Witness for `validator_invalid_value_recording`: a measurement with
`valueCm = -3` and `start.x = 1500` is recorded (twice) and fails the
validation. -/
theorem validator_invalid_value_recording_witness :
    ("총장" ++ " (" ++ "-3.0cm" ++ ")") ∈
      (validateResult
        { clothingType := "SHIRT", rulerStart := some ⟨0, 0⟩, rulerEnd := some ⟨10, 0⟩,
          rulerLengthCm := 50,
          measurements := [⟨"총장", ⟨1500, 0⟩, ⟨0, 0⟩, some "-3.0cm", some (-3)⟩] }).invalidValues ∧
    ("총장" ++ " coordinates out of bounds") ∈
      (validateResult
        { clothingType := "SHIRT", rulerStart := some ⟨0, 0⟩, rulerEnd := some ⟨10, 0⟩,
          rulerLengthCm := 50,
          measurements := [⟨"총장", ⟨1500, 0⟩, ⟨0, 0⟩, some "-3.0cm", some (-3)⟩] }).invalidValues ∧
    (validateResult
        { clothingType := "SHIRT", rulerStart := some ⟨0, 0⟩, rulerEnd := some ⟨10, 0⟩,
          rulerLengthCm := 50,
          measurements := [⟨"총장", ⟨1500, 0⟩, ⟨0, 0⟩, some "-3.0cm", some (-3)⟩] }).passed = false := by
  have h := validator_invalid_value_recording
    { clothingType := "SHIRT", rulerStart := some ⟨0, 0⟩, rulerEnd := some ⟨10, 0⟩,
      rulerLengthCm := 50,
      measurements := [⟨"총장", ⟨1500, 0⟩, ⟨0, 0⟩, some "-3.0cm", some (-3)⟩] }
    ⟨"총장", ⟨1500, 0⟩, ⟨0, 0⟩, some "-3.0cm", some (-3)⟩ (by decide)
  exact ⟨h.1 (by decide), h.2.1 (by decide), h.2.2 (by decide)⟩

/-- Witness for `validator_required_label_semantics`: a SHIRT result with
no label containing "소매길이" (sleeve length) fails with that label
missing. -/
theorem validator_required_label_semantics_witness :
    "소매길이" ∈
      (validateResult
        { clothingType := "SHIRT", rulerStart := some ⟨0, 0⟩, rulerEnd := some ⟨500, 0⟩,
          rulerLengthCm := 50,
          measurements := [⟨"어깨너비", ⟨0, 0⟩, ⟨100, 0⟩, some "10.0cm", some 10⟩] }).missingFields ∧
    (validateResult
        { clothingType := "SHIRT", rulerStart := some ⟨0, 0⟩, rulerEnd := some ⟨500, 0⟩,
          rulerLengthCm := 50,
          measurements := [⟨"어깨너비", ⟨0, 0⟩, ⟨100, 0⟩, some "10.0cm", some 10⟩] }).passed = false := by
  have h := validator_required_label_semantics
    { clothingType := "SHIRT", rulerStart := some ⟨0, 0⟩, rulerEnd := some ⟨500, 0⟩,
      rulerLengthCm := 50,
      measurements := [⟨"어깨너비", ⟨0, 0⟩, ⟨100, 0⟩, some "10.0cm", some 10⟩] }
  have hmem := (h.2.1 "소매길이" (by decide)).mpr (by decide)
  refine ⟨hmem, ?_⟩
  cases hp : (validateResult
      { clothingType := "SHIRT", rulerStart := some ⟨0, 0⟩, rulerEnd := some ⟨500, 0⟩,
        rulerLengthCm := 50,
        measurements := [⟨"어깨너비", ⟨0, 0⟩, ⟨100, 0⟩, some "10.0cm", some 10⟩] }).passed
  · rfl
  · exfalso
    have hempty := (h.2.2.mp hp).1
    rw [hempty] at hmem
    exact List.not_mem_nil _ hmem

/-- Witness for `validator_unknown_type_passes`: the unknown type "HOODIE"
(neither a garment type nor an inherited object property) passes
validation with a well-formed measurement. -/
theorem validator_unknown_type_passes_witness :
    requiredLabels "HOODIE" = [] ∧
    validateResultJs
      { clothingType := "HOODIE", rulerStart := some ⟨0, 0⟩, rulerEnd := some ⟨300, 400⟩,
        rulerLengthCm := 50,
        measurements := [⟨"기장", ⟨0, 0⟩, ⟨10, 10⟩, some "3.0cm", some 3⟩] } =
      some (validateResult
        { clothingType := "HOODIE", rulerStart := some ⟨0, 0⟩, rulerEnd := some ⟨300, 400⟩,
          rulerLengthCm := 50,
          measurements := [⟨"기장", ⟨0, 0⟩, ⟨10, 10⟩, some "3.0cm", some 3⟩] }) ∧
    (validateResult
      { clothingType := "HOODIE", rulerStart := some ⟨0, 0⟩, rulerEnd := some ⟨300, 400⟩,
        rulerLengthCm := 50,
        measurements := [⟨"기장", ⟨0, 0⟩, ⟨10, 10⟩, some "3.0cm", some 3⟩] }).passed = true := by
  have h := validator_unknown_type_passes
    { clothingType := "HOODIE", rulerStart := some ⟨0, 0⟩, rulerEnd := some ⟨300, 400⟩,
      rulerLengthCm := 50,
      measurements := [⟨"기장", ⟨0, 0⟩, ⟨10, 10⟩, some "3.0cm", some 3⟩] }
    (by decide) (by decide) (by decide) (by decide) (by decide) (by decide) rfl rfl (by decide)
  exact ⟨h.1, h.2.1, h.2.2.2⟩

/-- A degenerate ruler has zero pixel distance. -/
theorem euclid_self (p : Point) : euclid p p = 0 := by
  unfold euclid
  simp

/-- Evaluation of `calibrate` on a result with present ruler points and
positive ruler pixel distance. -/
theorem calibrate_eq_pos {r : AnalysisResult} {rs re : Point}
    (hs : r.rulerStart = some rs) (he : r.rulerEnd = some re)
    (hpos : 0 < euclid rs re) :
    calibrate r = some { r with
      rulerLengthCm := 50
      measurements := r.measurements.map (calibrateMeasurement rs re) } := by
  simp only [calibrate, hs, he, if_pos hpos]

/-- Evaluation of `calibrate` on a result with present ruler points and
zero ruler pixel distance. -/
theorem calibrate_eq_degenerate {r : AnalysisResult} {rs re : Point}
    (hs : r.rulerStart = some rs) (he : r.rulerEnd = some re)
    (hnpos : ¬ 0 < euclid rs re) :
    calibrate r = some { r with
      rulerLengthCm := 50
      measurements := r.measurements.map errorMeasurement } := by
  simp only [calibrate, hs, he, if_neg hnpos]

/-- C2: every result returned by the calibration step carries
`rulerLengthCm = 50`, whatever value the model reported. -/
theorem calibration_forces_rulerLengthCm (r r' : AnalysisResult)
    (hc : calibrate r = some r') : r'.rulerLengthCm = 50 := by
  rcases hrs : r.rulerStart with _ | rs
  · simp [calibrate, hrs] at hc
  rcases hre : r.rulerEnd with _ | re
  · simp [calibrate, hrs, hre] at hc
  by_cases hpos : 0 < euclid rs re
  · rw [calibrate_eq_pos hrs hre hpos] at hc
    cases hc
    rfl
  · rw [calibrate_eq_degenerate hrs hre hpos] at hc
    cases hc
    rfl

/-- Witness for `calibration_forces_rulerLengthCm`: a model-reported
`rulerLengthCm = 45` comes out as 50. -/
theorem calibration_forces_rulerLengthCm_witness :
    calibrate
        { clothingType := "SHIRT", rulerStart := some ⟨0, 0⟩, rulerEnd := some ⟨0, 0⟩,
          rulerLengthCm := 45, measurements := [] } =
      some { clothingType := "SHIRT", rulerStart := some ⟨0, 0⟩, rulerEnd := some ⟨0, 0⟩,
             rulerLengthCm := 50, measurements := [] } ∧
    (50 : ℚ) = 50 := by
  have hc : calibrate
      { clothingType := "SHIRT", rulerStart := some ⟨0, 0⟩, rulerEnd := some ⟨0, 0⟩,
        rulerLengthCm := 45, measurements := [] } =
      some { clothingType := "SHIRT", rulerStart := some ⟨0, 0⟩, rulerEnd := some ⟨0, 0⟩,
             rulerLengthCm := 50, measurements := [] } := by
    rw [calibrate_eq_degenerate rfl rfl (by rw [euclid_self]; exact lt_irrefl 0)]
    rfl
  exact ⟨hc, calibration_forces_rulerLengthCm _ _ hc ▸ rfl⟩

/-- C5: with a degenerate ruler (`rulerStart = rulerEnd`), calibration
still succeeds (total, no failure), every measurement receives the error
sentinel `value = "Error"` instead of a numeric display value, and
`valueCm` stays unset whenever the incoming measurements had none. -/
theorem calibration_degenerate_ruler_sentinel (r : AnalysisResult) (p : Point)
    (hs : r.rulerStart = some p) (he : r.rulerEnd = some p) :
    calibrate r = some { r with
      rulerLengthCm := 50
      measurements := r.measurements.map errorMeasurement } ∧
    (∀ m ∈ r.measurements.map errorMeasurement, m.value = some "Error") ∧
    ((∀ m ∈ r.measurements, m.valueCm = none) →
      ∀ m ∈ r.measurements.map errorMeasurement, m.valueCm = none) := by
  refine ⟨calibrate_eq_degenerate hs he (by rw [euclid_self]; exact lt_irrefl 0), ?_, ?_⟩
  · intro m hm
    rcases List.mem_map.mp hm with ⟨m0, _, rfl⟩
    rfl
  · intro hall m hm
    rcases List.mem_map.mp hm with ⟨m0, hm0, rfl⟩
    exact hall m0 hm0

/-- Witness for `calibration_degenerate_ruler_sentinel` at a concrete
degenerate result. -/
theorem calibration_degenerate_ruler_sentinel_witness :
    calibrate
        { clothingType := "SHIRT", rulerStart := some ⟨7, 7⟩, rulerEnd := some ⟨7, 7⟩,
          rulerLengthCm := 45,
          measurements := [⟨"총장", ⟨0, 0⟩, ⟨100, 100⟩, none, none⟩] } =
      some { clothingType := "SHIRT", rulerStart := some ⟨7, 7⟩, rulerEnd := some ⟨7, 7⟩,
             rulerLengthCm := 50,
             measurements := [⟨"총장", ⟨0, 0⟩, ⟨100, 100⟩, some "Error", none⟩] } := by
  have h := calibration_degenerate_ruler_sentinel
    { clothingType := "SHIRT", rulerStart := some ⟨7, 7⟩, rulerEnd := some ⟨7, 7⟩,
      rulerLengthCm := 45,
      measurements := [⟨"총장", ⟨0, 0⟩, ⟨100, 100⟩, none, none⟩] } ⟨7, 7⟩ rfl rfl
  exact h.1

/-- C9: calibration is idempotent — recalibrating an already-calibrated
result reproduces it exactly (in particular all `valueCm` values), because
the derived fields are recomputed from the untouched raw coordinates only. -/
theorem calibration_idempotent (r r' : AnalysisResult)
    (hc : calibrate r = some r') : calibrate r' = some r' := by
  rcases hrs : r.rulerStart with _ | rs
  · simp [calibrate, hrs] at hc
  rcases hre : r.rulerEnd with _ | re
  · simp [calibrate, hrs, hre] at hc
  by_cases hpos : 0 < euclid rs re
  · rw [calibrate_eq_pos hrs hre hpos] at hc
    cases hc
    refine (calibrate_eq_pos ?_ ?_ hpos).trans ?_
    · exact hrs
    · exact hre
    · simp only [List.map_map]
      rw [show calibrateMeasurement rs re ∘ calibrateMeasurement rs re =
        calibrateMeasurement rs re from funext fun m => rfl]
  · rw [calibrate_eq_degenerate hrs hre hpos] at hc
    cases hc
    refine (calibrate_eq_degenerate ?_ ?_ hpos).trans ?_
    · exact hrs
    · exact hre
    · simp only [List.map_map]
      rw [show errorMeasurement ∘ errorMeasurement = errorMeasurement from funext fun m => rfl]

/-- Witness for `calibration_idempotent`: recalibrating a concrete
already-calibrated (degenerate-ruler) result reproduces it. -/
theorem calibration_idempotent_witness :
    calibrate
        { clothingType := "PANTS", rulerStart := some ⟨3, 3⟩, rulerEnd := some ⟨3, 3⟩,
          rulerLengthCm := 50,
          measurements := [⟨"허리단면", ⟨1, 1⟩, ⟨2, 2⟩, some "Error", none⟩] } =
      some { clothingType := "PANTS", rulerStart := some ⟨3, 3⟩, rulerEnd := some ⟨3, 3⟩,
             rulerLengthCm := 50,
             measurements := [⟨"허리단면", ⟨1, 1⟩, ⟨2, 2⟩, some "Error", none⟩] } := by
  have hc : calibrate
      { clothingType := "PANTS", rulerStart := some ⟨3, 3⟩, rulerEnd := some ⟨3, 3⟩,
        rulerLengthCm := 45,
        measurements := [⟨"허리단면", ⟨1, 1⟩, ⟨2, 2⟩, none, none⟩] } =
      some { clothingType := "PANTS", rulerStart := some ⟨3, 3⟩, rulerEnd := some ⟨3, 3⟩,
             rulerLengthCm := 50,
             measurements := [⟨"허리단면", ⟨1, 1⟩, ⟨2, 2⟩, some "Error", none⟩] } := by
    rw [calibrate_eq_degenerate rfl rfl (by rw [euclid_self]; exact lt_irrefl 0)]
    rfl
  exact calibration_idempotent _ _ hc

/-- C1: with a nondegenerate ruler, every measurement's `valueCm` is
`euclid(start, end) / (euclid(rulerStart, rulerEnd) / 50)` rounded to one
decimal place, and its display value is that one-decimal string followed
by "cm". -/
theorem calibration_valueCm_formula (r r' : AnalysisResult) (rs re : Point)
    (hs : r.rulerStart = some rs) (he : r.rulerEnd = some re)
    (hpos : 0 < euclid rs re) (hc : calibrate r = some r') :
    r'.measurements = r.measurements.map fun m =>
      { m with
        valueCm := some (roundCm1 (euclid m.start m.«end» / (euclid rs re / 50)))
        value := some (toFixed1 (euclid m.start m.«end» / (euclid rs re / 50)) ++ "cm") } := by
  rw [calibrate_eq_pos hs he hpos] at hc
  cases hc
  rfl

/-- Pixel distance of a horizontal segment. -/
theorem euclid_horizontal (a b y : ℚ) (h : a ≤ b) :
    euclid ⟨a, y⟩ ⟨b, y⟩ = ((b - a : ℚ) : ℝ) := by
  show Real.sqrt (((b - a) * (b - a) + (y - y) * (y - y) : ℚ) : ℝ) = ((b - a : ℚ) : ℝ)
  rw [sub_self, mul_zero, add_zero]
  have h0 : (0 : ℝ) ≤ ((b - a : ℚ) : ℝ) := by
    exact_mod_cast sub_nonneg.mpr h
  rw [show (((b - a) * (b - a) : ℚ) : ℝ) = ((b - a : ℚ) : ℝ) * ((b - a : ℚ) : ℝ) from by
    push_cast
    ring]
  exact Real.sqrt_mul_self h0

/-- Witness for `calibration_valueCm_formula`: ruler (0,500)–(500,500) and
measurement (0,800)–(250,800) give `valueCm = 25` and display "25.0cm". -/
theorem calibration_valueCm_formula_witness :
    0 < euclid ⟨0, 500⟩ ⟨500, 500⟩ ∧
    calibrate
        { clothingType := "SHIRT", rulerStart := some ⟨0, 500⟩, rulerEnd := some ⟨500, 500⟩,
          rulerLengthCm := 45,
          measurements := [⟨"총장", ⟨0, 800⟩, ⟨250, 800⟩, none, none⟩] } =
      some { clothingType := "SHIRT", rulerStart := some ⟨0, 500⟩, rulerEnd := some ⟨500, 500⟩,
             rulerLengthCm := 50,
             measurements := [⟨"총장", ⟨0, 800⟩, ⟨250, 800⟩, some "25.0cm", some 25⟩] } ∧
    ({ clothingType := "SHIRT", rulerStart := some ⟨0, 500⟩, rulerEnd := some ⟨500, 500⟩,
       rulerLengthCm := 50,
       measurements :=
         [⟨"총장", ⟨0, 800⟩, ⟨250, 800⟩, some "25.0cm", some 25⟩] } : AnalysisResult).measurements =
      [⟨"총장", ⟨0, 800⟩, ⟨250, 800⟩, some "25.0cm", some 25⟩] := by
  have h500 : euclid ⟨0, 500⟩ ⟨500, 500⟩ = (500 : ℝ) := by
    rw [euclid_horizontal 0 500 500 (by norm_num)]
    norm_num
  have h250 : euclid ⟨0, 800⟩ ⟨250, 800⟩ = (250 : ℝ) := by
    rw [euclid_horizontal 0 250 800 (by norm_num)]
    norm_num
  have hpos : 0 < euclid ⟨0, 500⟩ ⟨500, 500⟩ := by
    rw [h500]
    norm_num
  have hv : euclid ⟨0, 800⟩ ⟨250, 800⟩ / (euclid ⟨0, 500⟩ ⟨500, 500⟩ / 50) = (25 : ℝ) := by
    rw [h500, h250]
    norm_num
  have hround : round ((10 : ℝ) * 25) = (250 : ℤ) := by
    norm_num [round_eq]
  have h1 : roundCm1 (euclid ⟨0, 800⟩ ⟨250, 800⟩ / (euclid ⟨0, 500⟩ ⟨500, 500⟩ / 50)) = 25 := by
    unfold roundCm1
    rw [hv, hround]
    norm_num
  have h2 : toFixed1 (euclid ⟨0, 800⟩ ⟨250, 800⟩ / (euclid ⟨0, 500⟩ ⟨500, 500⟩ / 50)) ++ "cm" =
      "25.0cm" := by
    unfold toFixed1
    rw [hv, hround]
    rfl
  have hc : calibrate
      { clothingType := "SHIRT", rulerStart := some ⟨0, 500⟩, rulerEnd := some ⟨500, 500⟩,
        rulerLengthCm := 45,
        measurements := [⟨"총장", ⟨0, 800⟩, ⟨250, 800⟩, none, none⟩] } =
      some { clothingType := "SHIRT", rulerStart := some ⟨0, 500⟩, rulerEnd := some ⟨500, 500⟩,
             rulerLengthCm := 50,
             measurements := [⟨"총장", ⟨0, 800⟩, ⟨250, 800⟩, some "25.0cm", some 25⟩] } := by
    rw [calibrate_eq_pos rfl rfl hpos]
    simp only [List.map_cons, List.map_nil, calibrateMeasurement]
    rw [h1, h2]
  refine ⟨hpos, hc, ?_⟩
  have hthm := calibration_valueCm_formula _ _ ⟨0, 500⟩ ⟨500, 500⟩ rfl rfl hpos hc
  rw [hthm]
  simp only [List.map_cons, List.map_nil]
  rw [h1, h2]

/-- `replaceFuel` on the empty list, any fuel. -/
theorem replaceFuel_nil (pat rep : List Char) (f : Nat) :
    replaceFuel pat rep f [] = [] := by
  cases f <;> rfl

/-- The fuel of `replaceFuel` is irrelevant once it covers the input
length. -/
theorem replaceFuel_congr (pat rep : List Char) :
    ∀ (f g : Nat) (cs : List Char), cs.length ≤ f → cs.length ≤ g →
      replaceFuel pat rep f cs = replaceFuel pat rep g cs := by
  intro f
  induction f with
  | zero =>
    intro g cs hf _
    have : cs = [] := List.eq_nil_of_length_eq_zero (Nat.le_zero.mp hf)
    subst this
    simp [replaceFuel_nil]
  | succ f ih =>
    intro g cs hf hg
    rcases cs with _ | ⟨c, cs⟩
    · simp [replaceFuel_nil]
    rcases g with _ | g
    · simp at hg
    simp only [List.length_cons] at hf hg
    simp only [replaceFuel]
    by_cases hp : (List.isPrefixOf pat (c :: cs) && !pat.isEmpty) = true
    · rw [if_pos hp, if_pos hp]
      congr 1
      have hplen : 1 ≤ pat.length := by
        rcases pat with _ | ⟨p, pt⟩
        · simp at hp
        · simp
      apply ih
      · simp only [List.length_drop, List.length_cons]
        omega
      · simp only [List.length_drop, List.length_cons]
        omega
    · rw [if_neg hp, if_neg hp]
      congr 1
      apply ih <;> omega

/-- Replacement walks over a stretch that cannot start a match (the
pattern's head character does not occur there). -/
theorem replaceAll_append_not_head (b : Char) (pt rep : List Char) :
    ∀ (a rest : List Char), (∀ c ∈ a, ¬ c = b) →
      replaceAll (b :: pt) rep (a ++ rest) = a ++ replaceAll (b :: pt) rep rest := by
  intro a
  induction a with
  | nil => intro rest _; rfl
  | cons c a ih =>
    intro rest ha
    have hcb : (b == c) = false :=
      beq_eq_false_iff_ne.mpr fun h => (ha c (List.mem_cons_self c a)) h.symm
    show replaceFuel (b :: pt) rep ((c :: (a ++ rest)).length) (c :: (a ++ rest)) = _
    simp only [List.length_cons, replaceFuel]
    rw [if_neg (by simp [List.isPrefixOf, hcb])]
    congr 1
    exact ih rest fun x hx => ha x (List.mem_cons_of_mem c hx)


/-- Replacement at an exact match site: the pattern is removed/replaced
and scanning continues after it (the replacement is not rescanned). -/
theorem replaceAll_append_self (pat rep rest : List Char) (hp : pat ≠ []) :
    replaceAll pat rep (pat ++ rest) = rep ++ replaceAll pat rep rest := by
  rcases pat with _ | ⟨p, pt⟩
  · exact absurd rfl hp
  show replaceFuel (p :: pt) rep (((p :: pt) ++ rest).length) ((p :: pt) ++ rest) = _
  have hauto : ∀ (xs ys : List Char), List.isPrefixOf xs (xs ++ ys) = true := by
    intro xs ys
    induction xs with
    | nil => simp [List.isPrefixOf]
    | cons x xs ih => simp [List.isPrefixOf, ih]
  have hpre : List.isPrefixOf (p :: pt) ((p :: pt) ++ rest) = true := hauto _ _
  rw [show ((p :: pt) ++ rest).length = (pt ++ rest).length + 1 from by simp]
  rw [List.cons_append]
  simp only [replaceFuel]
  have hcond : (List.isPrefixOf (p :: pt) (p :: (pt ++ rest)) && !(p :: pt).isEmpty) = true := by
    rw [← List.cons_append]
    simp [hpre]
  rw [if_pos hcond]
  congr 1
  rw [show (p :: (pt ++ rest)).drop (p :: pt).length = rest from by
    simp only [List.length_cons, List.drop_succ_cons]
    exact List.drop_left pt rest]
  exact replaceFuel_congr _ _ _ _ rest (by simp) (le_refl _)

/-- Replacement is the identity on a text in which the pattern's head
character never occurs. -/
theorem replaceAll_of_not_head (b : Char) (pt rep : List Char) (a : List Char)
    (ha : ∀ c ∈ a, ¬ c = b) : replaceAll (b :: pt) rep a = a := by
  have h := replaceAll_append_not_head b pt rep a [] ha
  simpa [show replaceAll (b :: pt) rep [] = [] from rfl] using h

/-- `trim` is the identity on a text with non-whitespace first and last
characters. -/
theorem trimList_of_ends (c d : Char) (xs : List Char)
    (hc : c.isWhitespace = false) (hd : d.isWhitespace = false) :
    trimList (c :: (xs ++ [d])) = c :: (xs ++ [d]) := by
  unfold trimList
  rw [List.dropWhile_cons, if_neg (by simp [hc])]
  rw [show (c :: (xs ++ [d])).reverse = d :: (xs.reverse ++ [c]) from by
    simp [List.reverse_cons, List.reverse_append]]
  rw [List.dropWhile_cons, if_neg (by simp [hd])]
  simp [List.reverse_cons, List.reverse_append]

/-- `indexOf` finds the head immediately. -/
theorem idxOf_cons_self (c : Char) (xs : List Char) : idxOf c (c :: xs) = some 0 := by
  simp [idxOf]

/-- `indexOf` skips a prefix not containing the needle. -/
theorem idxOf_append_of_not_mem (c : Char) :
    ∀ (a rest : List Char), (∀ x ∈ a, ¬ x = c) →
      idxOf c (a ++ rest) = (idxOf c rest).map (· + a.length) := by
  intro a
  induction a with
  | nil =>
    intro rest _
    cases h : idxOf c rest <;> simp [h]
  | cons x a ih =>
    intro rest ha
    have hxc : (x == c) = false :=
      beq_eq_false_iff_ne.mpr (ha x (List.mem_cons_self x a))
    rw [List.cons_append]
    show (if x == c then some 0 else (idxOf c (a ++ rest)).map (· + 1)) = _
    rw [hxc]
    rw [ih rest fun y hy => ha y (List.mem_cons_of_mem x hy)]
    cases h : idxOf c rest <;> simp [h, Nat.add_assoc]

/-- C6: the parse step is tolerant of conversational wrapping — a JSON
object payload (brace-delimited, containing no fence characters) wrapped
in markdown fences plus surrounding prose parses to exactly the same
result as the bare payload. -/
theorem parser_wrapping_tolerance (u : String)
    (h1 : u.data.head? = some '{') (h2 : u.data.getLast? = some '}')
    (h3 : ∀ c ∈ u.data, ¬ c = btick) :
    parseResponse (wrapResponse u) = parseResponse u := by
  -- Decompose the payload as '{' :: (mid ++ ['}']).
  obtain ⟨mid, hu⟩ : ∃ mid, u.data = '{' :: (mid ++ ['}']) := by
    rcases List.eq_nil_or_concat u.data with hnil | ⟨L, b, hLb⟩
    · rw [hnil] at h1
      simp at h1
    rw [List.concat_eq_append] at hLb
    have hb : b = '}' := by
      rw [hLb, List.getLast?_concat] at h2
      exact Option.some.inj h2
    rcases L with _ | ⟨c0, mid⟩
    · rw [hLb, hb] at h1
      simp at h1
    · have hc0 : c0 = '{' := by
        rw [hLb] at h1
        simpa using h1
      exact ⟨mid, by rw [hLb, hc0, hb]; rfl⟩
  have hlen1 : 1 ≤ u.data.length := by
    rw [hu]
    simp
  -- Instantiations of the replacement lemmas at the two fence patterns.
  have hskip1 : ∀ (a rest : List Char), (∀ c ∈ a, ¬ c = btick) →
      replaceAll "```json".data [] (a ++ rest) = a ++ replaceAll "```json".data [] rest := by
    intro a rest ha
    rw [show ("```json".data : List Char) = btick :: "``json".data from rfl]
    exact replaceAll_append_not_head btick _ _ a rest ha
  have hskip2 : ∀ (a rest : List Char), (∀ c ∈ a, ¬ c = btick) →
      replaceAll "```".data [] (a ++ rest) = a ++ replaceAll "```".data [] rest := by
    intro a rest ha
    rw [show ("```".data : List Char) = btick :: "``".data from rfl]
    exact replaceAll_append_not_head btick _ _ a rest ha
  -- Step 1: trimming leaves both texts unchanged.
  have htrimw : jsTrim (wrapResponse u) = wrapResponse u := by
    show (⟨trimList (wrapResponse u).data⟩ : String) = wrapResponse u
    have hdata : (wrapResponse u).data =
        'H' :: (("ere you go:\n```json\n".data ++ (u.data ++ "\n```\nThanks".data)) ++ ['!']) := by
      rw [show (wrapResponse u).data =
          "Here you go:\n```json\n".data ++ u.data ++ "\n```\nThanks!".data from by
        simp [wrapResponse, String.data_append]]
      rw [show "Here you go:\n```json\n".data = 'H' :: "ere you go:\n```json\n".data from rfl]
      rw [show "\n```\nThanks!".data = "\n```\nThanks".data ++ ['!'] from rfl]
      simp [List.append_assoc]
    rw [hdata, trimList_of_ends 'H' '!' _ (by decide) (by decide), ← hdata]
  have htrimu : jsTrim u = u := by
    show (⟨trimList u.data⟩ : String) = u
    rw [hu, trimList_of_ends '{' '}' mid (by decide) (by decide), ← hu]
  -- Step 2: fence stripping on the wrapped text.
  have hsfw : (stripFences (wrapResponse u)).data =
      "Here you go:\n\n".data ++ u.data ++ "\n\nThanks!".data := by
    show replaceAll "```".data [] (replaceAll "```json".data [] (wrapResponse u).data) =
      "Here you go:\n\n".data ++ u.data ++ "\n\nThanks!".data
    have hwdata : (wrapResponse u).data =
        "Here you go:\n".data ++ ("```json".data ++ (('\n' :: u.data) ++ "\n```\nThanks!".data)) := by
      rw [show (wrapResponse u).data =
          "Here you go:\n```json\n".data ++ u.data ++ "\n```\nThanks!".data from by
        simp [wrapResponse, String.data_append]]
      rw [show "Here you go:\n```json\n".data =
          "Here you go:\n".data ++ ("```json".data ++ ['\n']) from rfl]
      simp [List.append_assoc]
    have hpass1 : replaceAll "```json".data [] (wrapResponse u).data =
        "Here you go:\n".data ++ (('\n' :: u.data) ++ "\n```\nThanks!".data) := by
      rw [hwdata, hskip1 _ _ (by decide)]
      rw [show ("```json".data ++ (('\n' :: u.data) ++ "\n```\nThanks!".data) : List Char) =
          "```json".data ++ (('\n' :: u.data) ++ "\n```\nThanks!".data) from rfl]
      rw [show replaceAll "```json".data []
            ("```json".data ++ (('\n' :: u.data) ++ "\n```\nThanks!".data)) =
          [] ++ replaceAll "```json".data [] (('\n' :: u.data) ++ "\n```\nThanks!".data) from
        replaceAll_append_self _ _ _ (by decide)]
      rw [List.nil_append]
      rw [hskip1 ('\n' :: u.data) _ (by
        intro c hc
        rcases List.mem_cons.mp hc with rfl | hc
        · decide
        · exact h3 c hc)]
      rw [show replaceAll "```json".data [] "\n```\nThanks!".data = "\n```\nThanks!".data from rfl]
    have hpass2 : replaceAll "```".data []
        ("Here you go:\n".data ++ (('\n' :: u.data) ++ "\n```\nThanks!".data)) =
        "Here you go:\n\n".data ++ u.data ++ "\n\nThanks!".data := by
      rw [show ("Here you go:\n".data ++ (('\n' :: u.data) ++ "\n```\nThanks!".data) : List Char) =
          ("Here you go:\n".data ++ ('\n' :: u.data)) ++ "\n```\nThanks!".data from by
        simp [List.append_assoc]]
      have hP : ∀ c ∈ "Here you go:\n".data, ¬ c = btick := by decide
      rw [hskip2 ("Here you go:\n".data ++ ('\n' :: u.data)) _ (by
        intro c hc
        rcases List.mem_append.mp hc with hc | hc
        · exact hP c hc
        · rcases List.mem_cons.mp hc with rfl | hc
          · decide
          · exact h3 c hc)]
      rw [show replaceAll "```".data [] "\n```\nThanks!".data = "\n\nThanks!".data from rfl]
      rw [show "Here you go:\n\n".data = "Here you go:\n".data ++ ['\n'] from rfl]
      simp [List.append_assoc]
    rw [hpass1, hpass2]
  -- Step 2': fence stripping is the identity on the bare payload.
  have hsfu : (stripFences u).data = u.data := by
    show replaceAll "```".data [] (replaceAll "```json".data [] u.data) = u.data
    rw [show ("```json".data : List Char) = btick :: "``json".data from rfl,
      replaceAll_of_not_head btick _ _ u.data h3,
      show ("```".data : List Char) = btick :: "``".data from rfl,
      replaceAll_of_not_head btick _ _ u.data h3]
  -- Step 3: brace extraction on the cleaned wrapped text.
  have hidxw : idxOf '{' ("Here you go:\n\n".data ++ u.data ++ "\n\nThanks!".data) =
      some ("Here you go:\n\n".data.length) := by
    rw [List.append_assoc, idxOf_append_of_not_mem '{' _ _ (by decide), hu]
    rw [show (('{' :: (mid ++ ['}'])) ++ "\n\nThanks!".data : List Char) =
        '{' :: ((mid ++ ['}']) ++ "\n\nThanks!".data) from rfl]
    rw [idxOf_cons_self]
    simp
  have hlastw : lastIdxOf '}' ("Here you go:\n\n".data ++ u.data ++ "\n\nThanks!".data) =
      some ("Here you go:\n\n".data.length + u.data.length - 1) := by
    unfold lastIdxOf
    rw [show ("Here you go:\n\n".data ++ u.data ++ "\n\nThanks!".data : List Char).reverse =
        "\n\nThanks!".data.reverse ++ (u.data.reverse ++ "Here you go:\n\n".data.reverse) from by
      simp [List.reverse_append, List.append_assoc]]
    rw [idxOf_append_of_not_mem '}' _ _ (by decide)]
    rw [show u.data.reverse = '}' :: (mid.reverse ++ ['{']) from by
      rw [hu]
      simp [List.reverse_append]]
    rw [show (('}' :: (mid.reverse ++ ['{'])) ++ "Here you go:\n\n".data.reverse : List Char) =
        '}' :: ((mid.reverse ++ ['{']) ++ "Here you go:\n\n".data.reverse) from rfl]
    rw [idxOf_cons_self]
    simp only [Option.map_some, Nat.zero_add, Option.some.injEq]
    simp [hu, List.length_append, List.length_reverse]
    omega
  have hextw : cleanExtract (wrapResponse u) = u := by
    simp only [cleanExtract]
    rw [htrimw, hsfw, hidxw, hlastw]
    show (⟨jsSubstring ("Here you go:\n\n".data ++ u.data ++ "\n\nThanks!".data)
        ("Here you go:\n\n".data.length)
        (("Here you go:\n\n".data.length + u.data.length - 1) + 1)⟩ : String) = u
    have hsub : jsSubstring ("Here you go:\n\n".data ++ u.data ++ "\n\nThanks!".data)
        ("Here you go:\n\n".data.length)
        (("Here you go:\n\n".data.length + u.data.length - 1) + 1) = u.data := by
      unfold jsSubstring
      rw [show ("Here you go:\n\n".data.length + u.data.length - 1) + 1 =
          "Here you go:\n\n".data.length + u.data.length from by omega]
      rw [Nat.max_eq_right (by omega), Nat.min_eq_left (by omega)]
      rw [List.take_left' (by simp [List.length_append]; omega), List.drop_left]
    rw [hsub]
  -- Step 3': brace extraction on the cleaned bare payload.
  have hidxu : idxOf '{' u.data = some 0 := by
    rw [hu]
    exact idxOf_cons_self _ _
  have hlastu : lastIdxOf '}' u.data = some (u.data.length - 1) := by
    unfold lastIdxOf
    rw [show u.data.reverse = '}' :: (mid.reverse ++ ['{']) from by
      rw [hu]
      simp [List.reverse_append]]
    rw [idxOf_cons_self]
    simp
  have hextu : cleanExtract u = u := by
    simp only [cleanExtract]
    rw [htrimu, hsfu, hidxu, hlastu]
    show (⟨jsSubstring u.data 0 ((u.data.length - 1) + 1)⟩ : String) = u
    have hsub : jsSubstring u.data 0 ((u.data.length - 1) + 1) = u.data := by
      unfold jsSubstring
      rw [show (u.data.length - 1) + 1 = u.data.length from by omega]
      rw [Nat.max_eq_right (Nat.zero_le _), Nat.min_eq_left (Nat.zero_le _)]
      rw [List.take_length, List.drop_zero]
    rw [hsub]
  show parseJson (cleanExtract (wrapResponse u)) = parseJson (cleanExtract u)
  rw [hextw, hextu]

/-- Witness for `parser_wrapping_tolerance` at the payload "{}". -/
theorem parser_wrapping_tolerance_witness :
    ("{}".data.head? = some '{') ∧ ("{}".data.getLast? = some '}') ∧
    parseResponse (wrapResponse "{}") = parseResponse "{}" :=
  ⟨rfl, rfl, parser_wrapping_tolerance "{}" rfl rfl (by decide)⟩
